import Mathlib

/-!
Verification of the qcoin repository (weezy20/qcoin): a quantum coin toss
program that fetches a 1024-byte entropy block from a remote provider,
counts set and unset bits, and classifies the outcome as ONES, ZEROS or TIE.

The development shallowly embeds the Go source:
  * `countBits` — the pure bit counter (src/main.go lines 384-399);
  * the two provider fetchers `fetchQRandomBytes` and `fetchAnuQrngBytes`
    with the network modelled as an oracle world record;
  * the Bubble Tea `Update` state machine of the interactive TUI
    (src/unnamed/part_001, the variant with label editing), together with
    `initialModel`, `fetchAndFlipRun` (the body of `fetchAndFlipCmd`) and
    the CLI verdict path `runCLI`.
-/

namespace QCoin

/-- Byte sequences are lists of naturals; the Go code only ever inspects the
low 8 bits of each byte via `b & (1 << i)` for `i < 8`. -/
abbrev Bytes := List Nat

/-- Translated from `countBits` (src/main.go lines 384-399): for each byte,
examine bit positions 0..7; increment `ones` for a set bit and `zeros` for an
unset bit. The outer fold ranges over the bytes, the inner fold over the 8
bit positions, starting from the accumulator `(0, 0)`. -/
def countBits (bytes : Bytes) : Nat × Nat :=
  bytes.foldl
    (fun acc b =>
      (List.range 8).foldl
        (fun acc2 i =>
          if b &&& (1 <<< i) ≠ 0 then (acc2.1 + 1, acc2.2) else (acc2.1, acc2.2 + 1))
        acc)
    (0, 0)

/-- Each step of the inner bit loop increments exactly one of the two
counters, so the total count grows by the number of positions examined. -/
theorem innerFold_sum (b : Nat) (l : List Nat) (p : Nat × Nat) :
    ((l.foldl
        (fun acc2 i =>
          if b &&& (1 <<< i) ≠ 0 then (acc2.1 + 1, acc2.2) else (acc2.1, acc2.2 + 1))
        p).1 +
      (l.foldl
        (fun acc2 i =>
          if b &&& (1 <<< i) ≠ 0 then (acc2.1 + 1, acc2.2) else (acc2.1, acc2.2 + 1))
        p).2)
      = p.1 + p.2 + l.length := by
  induction l generalizing p with
  | nil => simp
  | cons x xs ih =>
    simp only [List.foldl_cons, List.length_cons]
    rw [ih]
    by_cases h : b &&& (1 <<< x) ≠ 0 <;> simp [h] <;> omega

/-- Each byte contributes exactly 8 to the total count. -/
theorem countBits_foldl_sum (bytes : Bytes) (p : Nat × Nat) :
    ((bytes.foldl
        (fun acc b =>
          (List.range 8).foldl
            (fun acc2 i =>
              if b &&& (1 <<< i) ≠ 0 then (acc2.1 + 1, acc2.2) else (acc2.1, acc2.2 + 1))
            acc)
        p).1 +
      (bytes.foldl
        (fun acc b =>
          (List.range 8).foldl
            (fun acc2 i =>
              if b &&& (1 <<< i) ≠ 0 then (acc2.1 + 1, acc2.2) else (acc2.1, acc2.2 + 1))
            acc)
        p).2)
      = p.1 + p.2 + 8 * bytes.length := by
  induction bytes generalizing p with
  | nil => simp
  | cons x xs ih =>
    simp only [List.foldl_cons, List.length_cons]
    rw [ih]
    rw [innerFold_sum]
    simp [List.length_range]
    ring

/-- C1: for every byte sequence, `countBits` returns a pair whose components
sum to 8 times the length of the input, and it returns `(0, 0)` on the empty
input. Purity, determinism and totality hold by construction: `countBits` is
a total Lean function. -/
theorem C1_countBits_total :
    (∀ bytes : Bytes, (countBits bytes).1 + (countBits bytes).2 = 8 * bytes.length)
    ∧ countBits [] = (0, 0) := by
  constructor
  · intro bytes
    have h := countBits_foldl_sum bytes (0, 0)
    simpa [countBits] using h
  · rfl

/-! ## Random source clients

The network is modelled as an oracle: a world record lists, in program order,
the outcome of each externally observable step of a fetch (HTTP responses,
JSON decoding of a body, reading a body stream). `none` models a transport,
decode or read failure at that step. -/

/-- An HTTP response as far as the code inspects it: its status code. The
body is consumed by the subsequent decode or read oracle. -/
structure HttpResponse where
  statusCode : Nat
deriving Repr, DecidableEq

/-- Translated from `QRandomResponse` (src/main.go lines 122-124): the JSON
document of the first qrandom.io phase, carrying the binary payload URL. -/
structure QRandomResponse where
  binaryURL : String
deriving Repr, DecidableEq

/-- Translated from `AnuQrngResponse` (src/main.go lines 126-129): the ANU
QRNG JSON document with a byte array and a success flag. -/
structure AnuQrngResponse where
  data : Bytes
  success : Bool
deriving Repr, DecidableEq

/-- Failure causes of `fetchQRandomBytes`, one per `return nil, fmt.Errorf`
site (src/main.go lines 412-447): transport error on the first GET, non-OK
status on the first GET, JSON decode failure, transport error on the second
GET, non-OK status on the second GET, body read failure. -/
inductive QrError where
  | requestFailed
  | badStatus (code : Nat)
  | decodeFailed
  | binaryFetchFailed
  | binaryBadStatus (code : Nat)
  | readFailed
deriving Repr, DecidableEq

/-- Failure causes of `fetchAnuQrngBytes`, one per `return nil, fmt.Errorf`
site (src/main.go lines 449-477). -/
inductive AnuError where
  | requestFailed
  | badStatus (code : Nat)
  | decodeFailed
  | successFalse
  | wrongLength (got : Nat)
deriving Repr, DecidableEq

/-- Errors surfaced by `fetchRandomBytes` (src/main.go lines 401-410):
a provider error or the unknown-source error of the default branch. -/
inductive FetchErr where
  | qr (e : QrError)
  | anu (e : AnuError)
  | unknownSource (s : String)
deriving Repr, DecidableEq

/-- Oracle world for one run of `fetchQRandomBytes`: the first GET response
(`none` = transport error), the JSON decoding of its body, the second GET
response to the decoded `binaryURL`, and the result of reading its body. -/
structure QrWorld where
  resp1 : Option HttpResponse
  decode1 : Option QRandomResponse
  resp2 : Option HttpResponse
  readBody : Option Bytes
deriving Repr, DecidableEq

/-- Oracle world for one run of `fetchAnuQrngBytes`: the GET response and
the JSON decoding of its body. -/
structure AnuWorld where
  resp : Option HttpResponse
  decode : Option AnuQrngResponse
deriving Repr, DecidableEq

/-- Translated from `fetchQRandomBytes` (src/main.go lines 412-447): GET the
binary descriptor, require status 200, decode the JSON for `binaryURL`, GET
that URL, require status 200, read the body; the body bytes are returned
without any length validation. -/
def fetchQRandomBytes (w : QrWorld) : Except QrError Bytes :=
  match w.resp1 with
  | none => .error .requestFailed
  | some r1 =>
    if r1.statusCode ≠ 200 then .error (.badStatus r1.statusCode)
    else
      match w.decode1 with
      | none => .error .decodeFailed
      | some _ =>
        match w.resp2 with
        | none => .error .binaryFetchFailed
        | some r2 =>
          if r2.statusCode ≠ 200 then .error (.binaryBadStatus r2.statusCode)
          else
            match w.readBody with
            | none => .error .readFailed
            | some bytes => .ok bytes

/-- Translated from `fetchAnuQrngBytes` (src/main.go lines 449-477): GET the
JSON endpoint, require status 200, decode, require `success` true, require
the data array length to equal `bytesToFetch` = 1024 exactly, then return
the data. -/
def fetchAnuQrngBytes (w : AnuWorld) : Except AnuError Bytes :=
  match w.resp with
  | none => .error .requestFailed
  | some r =>
    if r.statusCode ≠ 200 then .error (.badStatus r.statusCode)
    else
      match w.decode with
      | none => .error .decodeFailed
      | some anuResp =>
        if !anuResp.success then .error .successFalse
        else if anuResp.data.length ≠ 1024 then .error (.wrongLength anuResp.data.length)
        else .ok anuResp.data

/-- Translated from `fetchRandomBytes` (src/main.go lines 401-410): dispatch
on the source tag, defaulting to the unknown-source error. -/
def fetchRandomBytes (source : String) (qw : QrWorld) (aw : AnuWorld) :
    Except FetchErr Bytes :=
  match source with
  | "qr" =>
    match fetchQRandomBytes qw with
    | .ok bytes => .ok bytes
    | .error e => .error (.qr e)
  | "anu" =>
    match fetchAnuQrngBytes aw with
    | .ok bytes => .ok bytes
    | .error e => .error (.anu e)
  | s => .error (.unknownSource s)

/-! ## The interactive TUI state machine

Embedded from src/unnamed/part_001 (the TUI variant with label editing);
its normal-mode key handling and flip-message handling coincide with the
`Update` of src/main.go. -/

/-- Translated from `resultType` (src/main.go lines 133-139). -/
inductive resultType where
  | resOnes
  | resZeros
  | resTie
deriving Repr, DecidableEq

export resultType (resOnes resZeros resTie)

/-- Translated from `flipResult` (src/main.go lines 141-145). -/
structure flipResult where
  ones : Nat
  zeros : Nat
  winner : resultType
deriving Repr, DecidableEq

/-- Model of the external textinput component (charmbracelet/bubbles), an
external collaborator of the repository: the state the qcoin code observes
is the text value and the focus flag. -/
structure TextInput where
  value : String
  focused : Bool
deriving Repr, DecidableEq

/-- Model of `textinput.Model.SetValue`. -/
def TextInput.setValue (t : TextInput) (v : String) : TextInput :=
  { t with value := v }

/-- Model of `textinput.Model.Focus` (the returned blink command is modelled
as `Cmd.textCmd` at the call sites). -/
def TextInput.focus (t : TextInput) : TextInput :=
  { t with focused := true }

/-- Model of `textinput.Model.Blur`. -/
def TextInput.blur (t : TextInput) : TextInput :=
  { t with focused := false }

/-- Key messages, abstracting `tea.KeyMsg`: the named keys the code matches
on (`enter`, `esc`, `tab`, `up`, `down`) and plain character keys. -/
inductive Key where
  | enter
  | esc
  | tab
  | up
  | down
  | char (c : Char)
deriving Repr, DecidableEq

deriving instance DecidableEq for Except

/-- Messages delivered to `Update`, abstracting `tea.Msg`: key presses,
window size messages, and the `flipMsg` completion message whose `err` field
is non-nil exactly in the `Except.error` case (src/main.go lines 156-159). -/
inductive Msg where
  | key (k : Key)
  | windowSize (w h : Int)
  | flip (out : Except FetchErr flipResult)
deriving Repr, DecidableEq

/-- Commands returned by `Update`, abstracting `tea.Cmd`: no command,
`tea.Quit`, the asynchronous `fetchAndFlipCmd source`, and the opaque
commands of the external textinput component (focus blink and input
updates). -/
inductive Cmd where
  | none
  | quit
  | fetch (source : String)
  | textCmd
deriving Repr, DecidableEq

/-- Translated from `model` (src/unnamed/part_001 lines 103-116): source tag,
result history, loading flag, last error, window size, the two winner
labels, the label-edit mode flag, the two edit buffers and the focus index. -/
structure Model where
  source : String
  results : List flipResult
  loading : Bool
  err : Option FetchErr
  width : Int
  height : Int
  onesMsg : String
  zerosMsg : String
  inputMode : Bool
  onesInput : TextInput
  zerosInput : TextInput
  focusedInput : Nat
deriving Repr, DecidableEq

/-- Model of the external textinput update on a message: a character key
appends to the value when the input is focused; every other message leaves
the input unchanged; no command relevant to the program is returned. -/
def TextInput.updateMsg (t : TextInput) (m : Msg) : TextInput × Cmd :=
  match m with
  | .key (.char c) => (if t.focused then { t with value := t.value.push c } else t, .none)
  | _ => (t, .none)

/-- Translated from `initialModel` (src/unnamed/part_001 lines 123-144): the
source is stored as given (no validation), history empty, not loading,
default labels "ONES"/"ZEROS", fresh blurred edit buffers, focus index 0. -/
def initialModel (source : String) : Model :=
  { source := source
    results := []
    loading := false
    err := Option.none
    width := 0
    height := 0
    onesMsg := "ONES"
    zerosMsg := "ZEROS"
    inputMode := false
    onesInput := { value := "", focused := false }
    zerosInput := { value := "", focused := false }
    focusedInput := 0 }

/-- Translated from the input-mode block of `Update` (src/unnamed/part_001
lines 151-194): enter commits the buffers into the labels, esc discards,
tab/up/down switch focus between the two buffers, and every other message
is routed to the focused edit buffer. -/
def updateInput (m : Model) (msg : Msg) : Model × Cmd :=
  match msg with
  | .key .enter =>
    ({ m with
        onesMsg := m.onesInput.value
        zerosMsg := m.zerosInput.value
        inputMode := false
        onesInput := m.onesInput.blur
        zerosInput := m.zerosInput.blur }, .none)
  | .key .esc =>
    ({ m with
        inputMode := false
        onesInput := m.onesInput.blur
        zerosInput := m.zerosInput.blur }, .none)
  | .key .tab | .key .up | .key .down =>
    if m.focusedInput = 0 then
      ({ m with
          focusedInput := 1
          onesInput := m.onesInput.blur
          zerosInput := m.zerosInput.focus }, .textCmd)
    else
      ({ m with
          focusedInput := 0
          zerosInput := m.zerosInput.blur
          onesInput := m.onesInput.focus }, .textCmd)
  | _ =>
    if m.focusedInput = 0 then
      let tc := m.onesInput.updateMsg msg
      ({ m with onesInput := tc.1 }, tc.2)
    else
      let tc := m.zerosInput.updateMsg msg
      ({ m with zerosInput := tc.1 }, tc.2)

/-- Translated from the normal-mode block of `Update` (src/unnamed/part_001
lines 196-242): q quits; enter starts a fetch only when not loading; r
clears the history; c toggles the source; i enters input mode seeding the
buffers from the labels; a window-size message records the size; a flip
message clears the loading flag, then records the error or appends the
result; every other key falls through unchanged. -/
def updateNormal (m : Model) (msg : Msg) : Model × Cmd :=
  match msg with
  | .key (.char c) =>
    if c = 'q' then (m, .quit)
    else if c = 'r' then ({ m with results := [] }, .none)
    else if c = 'c' then
      (if m.source = "qr" then { m with source := "anu" }
       else { m with source := "qr" }, .none)
    else if c = 'i' then
      ({ m with
          inputMode := true
          focusedInput := 0
          onesInput := (m.onesInput.setValue m.onesMsg).focus
          zerosInput := (m.zerosInput.setValue m.zerosMsg).blur }, .textCmd)
    else (m, .none)
  | .key .enter =>
    if !m.loading then
      ({ m with loading := true, err := Option.none }, .fetch m.source)
    else (m, .none)
  | .key _ => (m, .none)
  | .windowSize w h => ({ m with width := w, height := h }, .none)
  | .flip out =>
    match out with
    | .error e => ({ m with loading := false, err := some e }, .none)
    | .ok r => ({ m with loading := false, results := m.results ++ [r] }, .none)

/-- Translated from `Update` (src/unnamed/part_001 lines 150-243): the
input-mode block handles all messages while label editing; otherwise the
normal-mode block runs. -/
def Update (m : Model) (msg : Msg) : Model × Cmd :=
  if m.inputMode then updateInput m msg else updateNormal m msg

/-- Translated from the body of `fetchAndFlipCmd` (src/main.go lines
317-340): fetch the entropy, return a `flipMsg` carrying the error on
failure; otherwise count the bits and build a `flipResult` whose winner
starts at `resTie` and is set to `resOnes` when ones > zeros and to
`resZeros` when zeros > ones. -/
def fetchAndFlipRun (source : String) (qw : QrWorld) (aw : AnuWorld) : Msg :=
  match fetchRandomBytes source qw aw with
  | .error e => .flip (.error e)
  | .ok bytes =>
    let oz := countBits bytes
    .flip (.ok
      { ones := oz.1
        zeros := oz.2
        winner :=
          if oz.1 > oz.2 then resOnes
          else if oz.2 > oz.1 then resZeros
          else resTie })

/-- The verdict word printed by the CLI path. -/
inductive CliVerdict where
  | ONES
  | ZEROS
  | TIE
deriving Repr, DecidableEq

/-- Translated from `runCLI` (src/main.go lines 363-382): fetch the entropy
(on failure the process exits non-zero, modelled as the error), count the
bits and print the two counts and the verdict chosen by the same
if-chain. -/
def runCLI (source : String) (qw : QrWorld) (aw : AnuWorld) :
    Except FetchErr (Nat × Nat × CliVerdict) :=
  match fetchRandomBytes source qw aw with
  | .error e => .error e
  | .ok bytes =>
    let oz := countBits bytes
    .ok (oz.1, oz.2,
      if oz.1 > oz.2 then .ONES
      else if oz.2 > oz.1 then .ZEROS
      else .TIE)

/-- The rendering of a winner tag in the CLI output vocabulary (the TUI
renders `resOnes` with the ONES label, `resZeros` with the ZEROS label and
`resTie` as TIE). -/
def verdictOfResultType : resultType → CliVerdict
  | resOnes => .ONES
  | resZeros => .ZEROS
  | resTie => .TIE

/-! ## Helper lemmas and concrete oracle worlds -/

/-- The bit counter splits every bit of the input between the two counters. -/
theorem countBits_sum (bytes : Bytes) :
    (countBits bytes).1 + (countBits bytes).2 = 8 * bytes.length := by
  have h := countBits_foldl_sum bytes (0, 0)
  simpa [countBits] using h

/-- A qrandom.io oracle world in which every network step succeeds and the
second body is empty: the code accepts it because it never checks the body
length. -/
def qrWorldEmpty : QrWorld :=
  { resp1 := some { statusCode := 200 }
    decode1 := some { binaryURL := "https://qrandom.io/b" }
    resp2 := some { statusCode := 200 }
    readBody := some [] }

/-- A qrandom.io oracle world in which the first GET has a transport
error. -/
def qrWorldDown : QrWorld :=
  { resp1 := none, decode1 := none, resp2 := none, readBody := none }

/-- An ANU oracle world in which the GET has a transport error. -/
def anuWorldDown : AnuWorld :=
  { resp := none, decode := none }

/-- An ANU oracle world that decodes to a response with `success = false`
and a short payload. -/
def anuWorldFalse : AnuWorld :=
  { resp := some { statusCode := 200 }
    decode := some { data := [1, 2, 3], success := false } }

/-- The verdict rule of the spec, as a predicate on a flip result. -/
def verdictRuleHolds (r : flipResult) : Prop :=
  (r.winner = resOnes ↔ r.zeros < r.ones)
  ∧ (r.winner = resZeros ↔ r.ones < r.zeros)
  ∧ (r.winner = resTie ↔ r.ones = r.zeros)

/-- Success characterization of the ANU fetcher. -/
theorem anu_ok_iff (w : AnuWorld) (bytes : Bytes) :
    fetchAnuQrngBytes w = Except.ok bytes ↔
      ∃ r d, w.resp = some r ∧ r.statusCode = 200 ∧ w.decode = some d
        ∧ d.success = true ∧ d.data.length = 1024 ∧ bytes = d.data := by
  unfold fetchAnuQrngBytes
  cases hr : w.resp with
  | none => simp [hr]
  | some r =>
    cases hd : w.decode with
    | none => by_cases hs : r.statusCode = 200 <;> simp [hr, hd, hs]
    | some d =>
      by_cases hs : r.statusCode = 200
      · by_cases hsc : d.success
        · by_cases hl : d.data.length = 1024
          · simp only [hr, hd, hs, hsc, hl]
            simp only [ne_eq, not_true_eq_false, if_false, Bool.not_true,
              Bool.false_eq_true, Except.ok.injEq, Option.some.injEq]
            constructor
            · intro h
              exact ⟨r, d, rfl, hs, rfl, hsc, hl, h.symm⟩
            · rintro ⟨r1, d1, hr1, hst1, hd1, hs1, hl1, hb⟩
              obtain rfl : d = d1 := hd1
              exact hb.symm
          · simp [hr, hd, hs, hsc, hl]
        · simp [hr, hd, hs, hsc]
      · simp [hr, hd, hs]

/-- Success characterization of the qrandom.io fetcher: no condition at all
is imposed on the returned bytes. -/
theorem qr_ok_iff (w : QrWorld) (bytes : Bytes) :
    fetchQRandomBytes w = Except.ok bytes ↔
      ∃ r1 r2, w.resp1 = some r1 ∧ r1.statusCode = 200 ∧ w.decode1.isSome
        ∧ w.resp2 = some r2 ∧ r2.statusCode = 200 ∧ w.readBody = some bytes := by
  unfold fetchQRandomBytes
  cases h1 : w.resp1 with
  | none => simp [h1]
  | some r1 =>
    by_cases hs1 : r1.statusCode = 200
    · cases hd : w.decode1 with
      | none => simp [h1, hs1, hd]
      | some q =>
        cases h2 : w.resp2 with
        | none => simp [h1, hs1, hd, h2]
        | some r2 =>
          by_cases hs2 : r2.statusCode = 200
          · cases hb : w.readBody with
            | none => simp [h1, hs1, hd, h2, hs2, hb]
            | some b =>
              simp only [h1, hs1, hd, h2, hs2, hb]
              simp only [ne_eq, not_true_eq_false, if_false, Except.ok.injEq,
                Option.some.injEq, Option.isSome_some]
              constructor
              · intro h
                exact ⟨r1, r2, rfl, hs1, trivial, rfl, hs2, h⟩
              · rintro ⟨r1a, r2a, hr1a, hst1a, _, hr2a, hst2a, hba⟩
                exact hba
          · simp [h1, hs1, hd, h2, hs2]
    · simp [h1, hs1]

/-- C2: for every fetched byte sequence, the verdict of the resulting flip
is ONES iff ones > zeros, ZEROS iff zeros > ones and TIE iff ones = zeros,
and the CLI path `runCLI` prints exactly the same counts and the same
verdict as the asynchronous `fetchAndFlipCmd` path computes. -/
theorem C2_verdict_rule (source : String) (qw : QrWorld) (aw : AnuWorld)
    (r : flipResult)
    (h : fetchAndFlipRun source qw aw = Msg.flip (Except.ok r)) :
    verdictRuleHolds r
    ∧ runCLI source qw aw = Except.ok (r.ones, r.zeros, verdictOfResultType r.winner) := by
  unfold fetchAndFlipRun at h
  unfold runCLI
  cases hf : fetchRandomBytes source qw aw with
  | error e => rw [hf] at h; simp at h
  | ok bytes =>
    rw [hf] at h
    simp only [Msg.flip.injEq, Except.ok.injEq] at h
    subst h
    unfold verdictRuleHolds
    by_cases h1 : (countBits bytes).2 < (countBits bytes).1 <;>
      by_cases h2 : (countBits bytes).1 < (countBits bytes).2 <;>
      simp [h1, h2, verdictOfResultType] <;>
      omega

/-- Witness for C2 at a concrete world: the qrandom.io oracle returns an
empty body, the flip result is a 0/0 tie and the CLI prints the same. -/
theorem C2_verdict_rule_witness :
    fetchAndFlipRun "qr" qrWorldEmpty anuWorldDown
      = Msg.flip (Except.ok { ones := 0, zeros := 0, winner := resTie })
    ∧ (verdictRuleHolds { ones := 0, zeros := 0, winner := resTie }
      ∧ runCLI "qr" qrWorldEmpty anuWorldDown
          = Except.ok (0, 0, verdictOfResultType resTie)) :=
  ⟨by decide,
   C2_verdict_rule "qr" qrWorldEmpty anuWorldDown
     { ones := 0, zeros := 0, winner := resTie } (by decide)⟩

/-- C5: the ANU fetch fails whenever the decoded response has
`success = false`, regardless of payload length; fails whenever the data
length is not exactly 1024; and returns the data array exactly when the
status is 200, the JSON decodes, the success flag is true and the length is
exactly 1024. -/
theorem C5_anu_strict (w : AnuWorld) :
    (∀ d, w.decode = some d → d.success = false →
      ∀ bytes, fetchAnuQrngBytes w ≠ Except.ok bytes)
    ∧ (∀ d, w.decode = some d → d.data.length ≠ 1024 →
      ∀ bytes, fetchAnuQrngBytes w ≠ Except.ok bytes)
    ∧ (∀ bytes, fetchAnuQrngBytes w = Except.ok bytes ↔
        ∃ r d, w.resp = some r ∧ r.statusCode = 200 ∧ w.decode = some d
          ∧ d.success = true ∧ d.data.length = 1024 ∧ bytes = d.data) := by
  refine ⟨?_, ?_, fun bytes => anu_ok_iff w bytes⟩
  · intro d hd hsucc bytes hok
    rcases (anu_ok_iff w bytes).mp hok with ⟨r, d2, _, _, hd2, hs2, _, _⟩
    rw [hd] at hd2
    obtain rfl : d = d2 := by injection hd2
    rw [hsucc] at hs2
    cases hs2
  · intro d hd hlen bytes hok
    rcases (anu_ok_iff w bytes).mp hok with ⟨r, d2, _, _, hd2, _, hl2, _⟩
    rw [hd] at hd2
    obtain rfl : d = d2 := by injection hd2
    exact hlen hl2

/-- Witness for C5 at a concrete world whose decoded response has
`success = false` and a 3-byte payload: the fetch does not succeed. -/
theorem C5_anu_strict_witness :
    anuWorldFalse.decode = some { data := [1, 2, 3], success := false }
    ∧ fetchAnuQrngBytes anuWorldFalse ≠ Except.ok [1, 2, 3] :=
  ⟨rfl, (C5_anu_strict anuWorldFalse).1 { data := [1, 2, 3], success := false }
    rfl rfl [1, 2, 3]⟩

/-- A qrandom.io oracle world in which both GETs return responses with 2xx
statuses (201 and 200), the JSON decodes and the body read succeeds. -/
def qrWorld201 : QrWorld :=
  { resp1 := some { statusCode := 201 }
    decode1 := some { binaryURL := "https://qrandom.io/b" }
    resp2 := some { statusCode := 200 }
    readBody := some (List.replicate 1024 0) }

/-- C6 counterexample: in `qrWorld201` no transport error occurs, both
statuses are 2xx, the JSON decodes and the body read succeeds, so by the
claim the fetch should not fail; but the code requires status exactly 200
(`http.StatusOK`), so it fails with the bad-status cause. -/
theorem C6_counterexample :
    qrWorld201.resp1 = some { statusCode := 201 }
    ∧ (200 ≤ 201 ∧ 201 < 300)
    ∧ qrWorld201.decode1.isSome = true
    ∧ qrWorld201.resp2 = some { statusCode := 200 }
    ∧ qrWorld201.readBody.isSome = true
    ∧ fetchQRandomBytes qrWorld201 = Except.error (QrError.badStatus 201) :=
  ⟨rfl, ⟨by omega, by omega⟩, rfl, rfl, rfl, rfl⟩

/-- C6 amended: the qrandom.io fetch fails, each with a distinct cause,
exactly when a transport error occurs at either GET phase, a status other
than 200 (OK) is returned at either phase, the first-phase JSON fails to
decode, or reading the second body fails; when all phases succeed the body
bytes are returned without validating their count against the requested
1024 bytes. -/
theorem C6_qr_failure_modes :
    (∀ w : QrWorld,
      (∀ bytes, fetchQRandomBytes w = Except.ok bytes ↔
        ∃ r1 r2, w.resp1 = some r1 ∧ r1.statusCode = 200 ∧ w.decode1.isSome
          ∧ w.resp2 = some r2 ∧ r2.statusCode = 200 ∧ w.readBody = some bytes)
      ∧ (w.resp1 = none → fetchQRandomBytes w = Except.error QrError.requestFailed)
      ∧ (∀ r1, w.resp1 = some r1 → r1.statusCode ≠ 200 →
          fetchQRandomBytes w = Except.error (QrError.badStatus r1.statusCode))
      ∧ (∀ r1, w.resp1 = some r1 → r1.statusCode = 200 → w.decode1 = none →
          fetchQRandomBytes w = Except.error QrError.decodeFailed)
      ∧ (∀ r1 q, w.resp1 = some r1 → r1.statusCode = 200 → w.decode1 = some q →
          w.resp2 = none → fetchQRandomBytes w = Except.error QrError.binaryFetchFailed)
      ∧ (∀ r1 q r2, w.resp1 = some r1 → r1.statusCode = 200 → w.decode1 = some q →
          w.resp2 = some r2 → r2.statusCode ≠ 200 →
          fetchQRandomBytes w = Except.error (QrError.binaryBadStatus r2.statusCode))
      ∧ (∀ r1 q r2, w.resp1 = some r1 → r1.statusCode = 200 → w.decode1 = some q →
          w.resp2 = some r2 → r2.statusCode = 200 → w.readBody = none →
          fetchQRandomBytes w = Except.error QrError.readFailed))
    ∧ (∃ w bytes, fetchQRandomBytes w = Except.ok bytes ∧ bytes.length ≠ 1024) := by
  constructor
  · intro w
    refine ⟨fun bytes => qr_ok_iff w bytes, ?_, ?_, ?_, ?_, ?_, ?_⟩
    · intro h1
      simp [fetchQRandomBytes, h1]
    · intro r1 h1 hs1
      simp [fetchQRandomBytes, h1, hs1]
    · intro r1 h1 hs1 hd
      simp [fetchQRandomBytes, h1, hs1, hd]
    · intro r1 q h1 hs1 hd h2
      simp [fetchQRandomBytes, h1, hs1, hd, h2]
    · intro r1 q r2 h1 hs1 hd h2 hs2
      simp [fetchQRandomBytes, h1, hs1, hd, h2, hs2]
    · intro r1 q r2 h1 hs1 hd h2 hs2 hb
      simp [fetchQRandomBytes, h1, hs1, hd, h2, hs2, hb]
  · exact ⟨qrWorldEmpty, [], rfl, by decide⟩

/-- Witness for C6 at a concrete world: a transport error on the first GET
yields the request-failed cause. -/
theorem C6_qr_failure_modes_witness :
    fetchQRandomBytes qrWorldDown = Except.error QrError.requestFailed :=
  (C6_qr_failure_modes.1 qrWorldDown).2.1 rfl

/-- Dispatch of `fetchRandomBytes` on the "qr" tag. -/
theorem fetchRandomBytes_qr (qw : QrWorld) (aw : AnuWorld) :
    fetchRandomBytes "qr" qw aw =
      match fetchQRandomBytes qw with
      | .ok bytes => .ok bytes
      | .error e => .error (.qr e) := rfl

/-- Dispatch of `fetchRandomBytes` on the "anu" tag. -/
theorem fetchRandomBytes_anu (qw : QrWorld) (aw : AnuWorld) :
    fetchRandomBytes "anu" qw aw =
      match fetchAnuQrngBytes aw with
      | .ok bytes => .ok bytes
      | .error e => .error (.anu e) := rfl

/-- C3 amended: every successful flip counts exactly the fetched entropy
block, so `ones + zeros = 8 × len(bytes)`; with PROVIDER_B ("anu") the
strict length validation makes this 8192, but PROVIDER_A ("qr") does not
validate the body length, so the sum need not be 8192. -/
theorem C3_flip_sum (source : String) (qw : QrWorld) (aw : AnuWorld)
    (r : flipResult)
    (h : fetchAndFlipRun source qw aw = Msg.flip (Except.ok r)) :
    (∃ bytes, fetchRandomBytes source qw aw = Except.ok bytes
      ∧ r.ones + r.zeros = 8 * bytes.length)
    ∧ (source = "anu" → r.ones + r.zeros = 8192) := by
  unfold fetchAndFlipRun at h
  cases hf : fetchRandomBytes source qw aw with
  | error e => rw [hf] at h; simp at h
  | ok bytes =>
    rw [hf] at h
    simp only [Msg.flip.injEq, Except.ok.injEq] at h
    subst h
    constructor
    · exact ⟨bytes, rfl, by simpa using countBits_sum bytes⟩
    · intro hsrc
      subst hsrc
      rw [fetchRandomBytes_anu] at hf
      cases ha : fetchAnuQrngBytes aw with
      | error e => rw [ha] at hf; simp at hf
      | ok b2 =>
        rw [ha] at hf
        simp only [Except.ok.injEq] at hf
        subst hf
        rcases (anu_ok_iff aw b2).mp ha with ⟨rr, dd, _, _, _, _, hl, hb⟩
        have hlen : b2.length = 1024 := by rw [hb]; exact hl
        have hsum := countBits_sum b2
        simp only [hlen] at hsum
        simpa using hsum

/-- C3 counterexample: starting the TUI with the default "qr" source,
pressing enter starts a fetch; when the qrandom.io oracle returns an empty
body, the completed flip appends a result with `ones + zeros = 0` to the
session history, violating the claimed 8192 invariant. -/
theorem C3_counterexample :
    (Update (initialModel "qr") (Msg.key Key.enter)).2 = Cmd.fetch "qr"
    ∧ (Update (Update (initialModel "qr") (Msg.key Key.enter)).1
        (fetchAndFlipRun "qr" qrWorldEmpty anuWorldDown)).1.results
        = [{ ones := 0, zeros := 0, winner := resTie }]
    ∧ ¬ (∀ r ∈ (Update (Update (initialModel "qr") (Msg.key Key.enter)).1
          (fetchAndFlipRun "qr" qrWorldEmpty anuWorldDown)).1.results,
        r.ones + r.zeros = 8192) := by
  refine ⟨by decide, by decide, ?_⟩
  intro hall
  have := hall { ones := 0, zeros := 0, winner := resTie } (by decide)
  simp at this

/-- Witness for C3's amended theorem at a concrete world: the empty-body
qrandom.io flip satisfies the amended sum invariant with `len(bytes) = 0`. -/
theorem C3_flip_sum_witness :
    fetchAndFlipRun "qr" qrWorldEmpty anuWorldDown
      = Msg.flip (Except.ok { ones := 0, zeros := 0, winner := resTie })
    ∧ ((∃ bytes, fetchRandomBytes "qr" qrWorldEmpty anuWorldDown = Except.ok bytes
        ∧ 0 + 0 = 8 * bytes.length)
      ∧ ("qr" = "anu" → 0 + 0 = 8192)) :=
  ⟨by decide,
   C3_flip_sum "qr" qrWorldEmpty anuWorldDown
     { ones := 0, zeros := 0, winner := resTie } (by decide)⟩

/-- A LOADING-phase model with a non-empty history: the default start state
after a flip was requested and one earlier result was recorded. -/
def mLoadingHist : Model :=
  { initialModel "qr" with
      loading := true
      results := [{ ones := 8192, zeros := 0, winner := resOnes }] }

/-- C4 counterexample: in a LOADING state the reset event is not ignored —
it clears the non-empty history, so the state after dispatching it differs
from the state before; the source toggle and the label-edit request are not
ignored either. -/
theorem C4_counterexample :
    mLoadingHist.loading = true
    ∧ mLoadingHist.inputMode = false
    ∧ (Update mLoadingHist (Msg.key (Key.char 'r'))).1 ≠ mLoadingHist
    ∧ (Update mLoadingHist (Msg.key (Key.char 'r'))).1.results = []
    ∧ (Update mLoadingHist (Msg.key (Key.char 'c'))).1.source = "anu"
    ∧ (Update mLoadingHist (Msg.key (Key.char 'i'))).1.inputMode = true := by
  decide

/-- C4 amended: only `flip-requested` is guarded by the loading flag. While
LOADING (loading set, not editing) the reset event clears the history, the
toggle event flips the selector and the label-edit event enters label
editing. While LABEL_EDITING all character keys (including r, c, i) are
routed to the focused edit buffer: the history, selector, labels and the
editing phase are unchanged. -/
theorem C4_nonidle_events (m : Model) :
    (m.inputMode = false → m.loading = true →
      (Update m (Msg.key (Key.char 'r'))).1 = { m with results := [] }
      ∧ (Update m (Msg.key (Key.char 'c'))).1
          = (if m.source = "qr" then { m with source := "anu" }
             else { m with source := "qr" })
      ∧ (Update m (Msg.key (Key.char 'i'))).1.inputMode = true)
    ∧ (m.inputMode = true → ∀ c : Char,
        (Update m (Msg.key (Key.char c))).1.results = m.results
        ∧ (Update m (Msg.key (Key.char c))).1.source = m.source
        ∧ (Update m (Msg.key (Key.char c))).1.onesMsg = m.onesMsg
        ∧ (Update m (Msg.key (Key.char c))).1.zerosMsg = m.zerosMsg
        ∧ (Update m (Msg.key (Key.char c))).1.inputMode = true) := by
  constructor
  · intro h1 h2
    refine ⟨?_, ?_, ?_⟩ <;> simp [Update, updateNormal, h1]
  · intro h1 c
    by_cases hf : m.focusedInput = 0 <;>
      simp [Update, updateInput, h1, hf, TextInput.updateMsg]

/-- Witness for C4's amended theorem at the concrete LOADING state with one
recorded result. -/
theorem C4_nonidle_events_witness :
    (Update mLoadingHist (Msg.key (Key.char 'r'))).1
      = { mLoadingHist with results := [] }
    ∧ (Update mLoadingHist (Msg.key (Key.char 'c'))).1
        = (if mLoadingHist.source = "qr" then { mLoadingHist with source := "anu" }
           else { mLoadingHist with source := "qr" })
    ∧ (Update mLoadingHist (Msg.key (Key.char 'i'))).1.inputMode = true :=
  (C4_nonidle_events mLoadingHist).1 rfl rfl

/-- Whether a command starts an entropy fetch. -/
def Cmd.isFetch : Cmd → Bool
  | .fetch _ => true
  | _ => false

/-- While label editing, no message can start a fetch. -/
theorem inputMode_no_fetch (m : Model) (msg : Msg) (h : m.inputMode = true) :
    ((Update m msg).2).isFetch = false := by
  cases msg with
  | key k =>
    cases k <;>
      simp only [Update, updateInput, h, if_true] <;>
      first
        | rfl
        | (split <;> simp [TextInput.updateMsg, Cmd.isFetch])
  | windowSize w h2 =>
    simp only [Update, updateInput, h, if_true]
    split <;> simp [TextInput.updateMsg, Cmd.isFetch]
  | flip out =>
    simp only [Update, updateInput, h, if_true]
    split <;> simp [TextInput.updateMsg, Cmd.isFetch]

/-- A fetch command is issued only by the enter key in normal mode while not
loading, and it sets the loading flag. -/
theorem update_isFetch (m : Model) (msg : Msg)
    (h : ((Update m msg).2).isFetch = true) :
    m.loading = false ∧ ((Update m msg).1).loading = true := by
  by_cases hin : m.inputMode
  · rw [inputMode_no_fetch m msg hin] at h
    cases h
  · simp only [Update, hin, if_false, Bool.false_eq_true] at h ⊢
    cases msg with
    | key k =>
      cases k with
      | enter =>
        simp only [updateNormal] at h ⊢
        split_ifs at h ⊢ with hl
        · simp_all [Cmd.isFetch]
        · simp [Cmd.isFetch] at h
      | esc => simp [updateNormal, Cmd.isFetch] at h
      | tab => simp [updateNormal, Cmd.isFetch] at h
      | up => simp [updateNormal, Cmd.isFetch] at h
      | down => simp [updateNormal, Cmd.isFetch] at h
      | char c =>
        simp only [updateNormal] at h ⊢
        split_ifs at h ⊢ <;> simp_all [Cmd.isFetch]
    | windowSize w h2 => simp [updateNormal, Cmd.isFetch] at h
    | flip out => cases out <;> simp [updateNormal, Cmd.isFetch] at h


/-- No message other than a flip completion can clear the loading flag. -/
theorem update_preserves_loading (m : Model) (msg : Msg)
    (hmsg : ∀ out, msg ≠ Msg.flip out) (h : m.loading = true) :
    ((Update m msg).1).loading = true := by
  by_cases hin : m.inputMode
  · simp only [Update, hin, if_true]
    cases msg with
    | key k =>
      cases k <;> simp only [updateInput] <;>
        first
          | (split_ifs <;> simp [TextInput.updateMsg, h])
          | simp [TextInput.updateMsg, h]
    | windowSize w h2 =>
      simp only [updateInput]
      split_ifs <;> simp [TextInput.updateMsg, h]
    | flip out => exact absurd rfl (hmsg out)
  · simp only [Update, hin, if_false, Bool.false_eq_true]
    cases msg with
    | key k =>
      cases k with
      | enter => simp [updateNormal, h]
      | esc => simp [updateNormal, h]
      | tab => simp [updateNormal, h]
      | up => simp [updateNormal, h]
      | down => simp [updateNormal, h]
      | char c => simp only [updateNormal]; split_ifs <;> simp [h]
    | windowSize w h2 => simp [updateNormal, h]
    | flip out => exact absurd rfl (hmsg out)

/-- Processing a flip completion never issues a command. -/
theorem update_flip_cmd_none (m : Model) (out : Except FetchErr flipResult) :
    (Update m (Msg.flip out)).2 = Cmd.none := by
  by_cases hin : m.inputMode
  · simp only [Update, hin, if_true, updateInput]
    split_ifs <;> simp [TextInput.updateMsg]
  · simp only [Update, hin, if_false, Bool.false_eq_true]
    cases out <;> simp [updateNormal]

/-- One step of the interactive loop paired with the number of fetches in
flight: a dispatched input or window event runs `Update` and starts a fetch
when the returned command is one; delivering a flip completion consumes an
in-flight fetch (possible only when one is in flight, since the one-shot
completion message is produced by the fetch itself) and runs `Update`, which
issues no command. -/
inductive Step : Model × Nat → Model × Nat → Prop where
  | dispatch (m : Model) (f : Nat) (msg : Msg)
      (hmsg : ∀ out, msg ≠ Msg.flip out) :
      Step (m, f)
        ((Update m msg).1, f + (if ((Update m msg).2).isFetch then 1 else 0))
  | deliver (m : Model) (f : Nat) (out : Except FetchErr flipResult)
      (hf : 0 < f) :
      Step (m, f) ((Update m (Msg.flip out)).1, f - 1)

/-- Reachability of a model and in-flight count from the start state of the
program run with the given source flag. -/
def Reachable (source : String) (p : Model × Nat) : Prop :=
  Relation.ReflTransGen Step (initialModel source, 0) p

/-- The inductive invariant: at most one fetch is in flight, and when one
is, the loading flag is set. -/
theorem reachable_inflight (source : String) (p : Model × Nat)
    (h : Reachable source p) :
    p.2 ≤ 1 ∧ (p.2 = 1 → p.1.loading = true) := by
  induction h with
  | refl => exact ⟨by omega, fun hf => by simp [initialModel] at hf⟩
  | tail hsteps hstep ih =>
    cases hstep with
    | dispatch m f msg hmsg =>
      by_cases hF : ((Update m msg).2).isFetch = true
      · obtain ⟨hl0, hl1⟩ := update_isFetch m msg hF
        have hf0 : f = 0 := by
          rcases Nat.lt_or_ge f 1 with hlt | hge
          · omega
          · exfalso
            have : f = 1 := by omega
            rw [ih.2 this] at hl0
            cases hl0
        subst hf0
        simp only [hF, if_true]
        exact ⟨by omega, fun _ => hl1⟩
      · have hF0 : ((Update m msg).2).isFetch = false := by
          cases hx : ((Update m msg).2).isFetch
          · rfl
          · exact absurd hx hF
        simp only [hF0, Bool.false_eq_true, if_false, Nat.add_zero]
        refine ⟨ih.1, fun hf1 => ?_⟩
        exact update_preserves_loading m msg hmsg (ih.2 hf1)
    | deliver m f out hf =>
      refine ⟨by omega, fun hf1 => ?_⟩
      exfalso
      have := ih.1
      omega

/-- C7: issuing flip-requested (enter) while LOADING produces no state
change and no command, hence no second fetch; and in every reachable
execution of the loop the number of in-flight fetches never exceeds one. -/
theorem C7_no_concurrent_fetch :
    (∀ m : Model, m.inputMode = false → m.loading = true →
      Update m (Msg.key Key.enter) = (m, Cmd.none))
    ∧ (∀ (source : String) (p : Model × Nat), Reachable source p → p.2 ≤ 1) := by
  constructor
  · intro m h1 h2
    simp [Update, updateNormal, h1, h2]
  · intro source p h
    exact (reachable_inflight source p h).1

/-- A LOADING-phase model reached right after a flip request from the
default start state. -/
def mLoadingQr : Model := { initialModel "qr" with loading := true }

/-- Witness for C7: at the concrete LOADING state the enter key is a no-op
with no command, and the start state has no fetch in flight. -/
theorem C7_no_concurrent_fetch_witness :
    Update mLoadingQr (Msg.key Key.enter) = (mLoadingQr, Cmd.none)
    ∧ ((initialModel "qr", 0) : Model × Nat).2 ≤ 1 :=
  ⟨C7_no_concurrent_fetch.1 mLoadingQr rfl rfl,
   C7_no_concurrent_fetch.2 "qr" (initialModel "qr", 0) Relation.ReflTransGen.refl⟩

/-- C8: processing a flip completion carrying a failure records the error
for display, appends nothing to the history, leaves every other field
(selector, labels, existing history) unchanged, returns the phase to IDLE
(loading cleared, still not editing) and issues no command — in particular
not quit; a successful completion appends exactly the one carried result.
Every flip outcome is one of the two: an error message, or a result whose
counts are exactly the bit counts of the fetched entropy block. -/
theorem C8_flip_failure (m : Model) (e : FetchErr)
    (h1 : m.inputMode = false) (hload : m.loading = true) :
    Update m (Msg.flip (Except.error e))
      = ({ m with loading := false, err := some e }, Cmd.none)
    ∧ (∀ r, Update m (Msg.flip (Except.ok r))
        = ({ m with loading := false, results := m.results ++ [r] }, Cmd.none))
    ∧ (∀ (source : String) (qw : QrWorld) (aw : AnuWorld),
        (∃ e2, fetchAndFlipRun source qw aw = Msg.flip (Except.error e2))
        ∨ (∃ bytes r, fetchRandomBytes source qw aw = Except.ok bytes
            ∧ fetchAndFlipRun source qw aw = Msg.flip (Except.ok r)
            ∧ r.ones = (countBits bytes).1 ∧ r.zeros = (countBits bytes).2)) := by
  refine ⟨?_, ?_, ?_⟩
  · simp [Update, updateNormal, h1]
  · intro r
    simp [Update, updateNormal, h1]
  · intro source qw aw
    cases hf : fetchRandomBytes source qw aw with
    | error e2 =>
      left
      exact ⟨e2, by simp [fetchAndFlipRun, hf]⟩
    | ok bytes =>
      right
      exact ⟨bytes,
        { ones := (countBits bytes).1
          zeros := (countBits bytes).2
          winner :=
            if (countBits bytes).1 > (countBits bytes).2 then resOnes
            else if (countBits bytes).2 > (countBits bytes).1 then resZeros
            else resTie },
        rfl, by simp [fetchAndFlipRun, hf], rfl, rfl⟩

/-- Witness for C8 at the concrete LOADING state and a concrete error. -/
theorem C8_flip_failure_witness :
    Update mLoadingQr (Msg.flip (Except.error (FetchErr.unknownSource "x")))
      = ({ mLoadingQr with
            loading := false
            err := some (FetchErr.unknownSource "x") }, Cmd.none) :=
  (C8_flip_failure mLoadingQr (FetchErr.unknownSource "x") rfl rfl).1

/-- Left fold of `Update` over a list of messages, keeping the model. -/
def dispatchList (m : Model) (msgs : List Msg) : Model :=
  msgs.foldl (fun acc msg => (Update acc msg).1) m

/-- Any message other than enter or esc keeps the session in label-editing
mode and touches neither labels, history, selector nor the loading flag. -/
theorem editMode_preserves (m : Model) (msg : Msg)
    (h : m.inputMode = true)
    (hne : msg ≠ Msg.key Key.enter) (hesc : msg ≠ Msg.key Key.esc) :
    ((Update m msg).1.inputMode = true)
    ∧ (Update m msg).1.onesMsg = m.onesMsg
    ∧ (Update m msg).1.zerosMsg = m.zerosMsg
    ∧ (Update m msg).1.results = m.results
    ∧ (Update m msg).1.source = m.source
    ∧ (Update m msg).1.loading = m.loading := by
  simp only [Update, h, if_true]
  cases msg with
  | key k =>
    cases k with
    | enter => exact absurd rfl hne
    | esc => exact absurd rfl hesc
    | tab => simp only [updateInput]; split_ifs <;> simp [h]
    | up => simp only [updateInput]; split_ifs <;> simp [h]
    | down => simp only [updateInput]; split_ifs <;> simp [h]
    | char c =>
      simp only [updateInput]
      split_ifs <;> simp [TextInput.updateMsg, h]
  | windowSize w h2 =>
    simp only [updateInput]
    split_ifs <;> simp [TextInput.updateMsg, h]
  | flip out =>
    simp only [updateInput]
    split_ifs <;> simp [TextInput.updateMsg, h]

/-- Dispatching any list of edit messages preserves the label-editing mode
and the observable session fields. -/
theorem dispatchList_preserves (m : Model) (msgs : List Msg)
    (h : m.inputMode = true)
    (hmsgs : ∀ msg ∈ msgs, msg ≠ Msg.key Key.enter ∧ msg ≠ Msg.key Key.esc) :
    ((dispatchList m msgs).inputMode = true)
    ∧ (dispatchList m msgs).onesMsg = m.onesMsg
    ∧ (dispatchList m msgs).zerosMsg = m.zerosMsg
    ∧ (dispatchList m msgs).results = m.results
    ∧ (dispatchList m msgs).source = m.source
    ∧ (dispatchList m msgs).loading = m.loading := by
  induction msgs generalizing m with
  | nil => simp [dispatchList, h]
  | cons x xs ih =>
    have hx := hmsgs x (by simp)
    have hp := editMode_preserves m x h hx.1 hx.2
    have ihx := ih ((Update m x).1) hp.1 (fun msg hmem => hmsgs msg (by simp [hmem]))
    have hfold : dispatchList m (x :: xs) = dispatchList ((Update m x).1) xs := rfl
    rw [hfold]
    refine ⟨ihx.1, ?_, ?_, ?_, ?_, ?_⟩
    · rw [ihx.2.1, hp.2.1]
    · rw [ihx.2.2.1, hp.2.2.1]
    · rw [ihx.2.2.2.1, hp.2.2.2.1]
    · rw [ihx.2.2.2.2.1, hp.2.2.2.2.1]
    · rw [ihx.2.2.2.2.2, hp.2.2.2.2.2]

/-- C9: starting from an idle state, entering label editing, performing any
sequence of edit-buffer modifications (any messages other than enter and
esc) and then cancelling with esc leaves the label set exactly as it was
before the edit was requested, exits to IDLE, and mutates neither the
session history nor the source selector. -/
theorem C9_label_edit_cancel (m : Model) (msgs : List Msg)
    (h0 : m.inputMode = false) (hl : m.loading = false)
    (hmsgs : ∀ msg ∈ msgs, msg ≠ Msg.key Key.enter ∧ msg ≠ Msg.key Key.esc) :
    ((Update (dispatchList (Update m (Msg.key (Key.char 'i'))).1 msgs)
        (Msg.key Key.esc)).1.onesMsg = m.onesMsg)
    ∧ ((Update (dispatchList (Update m (Msg.key (Key.char 'i'))).1 msgs)
        (Msg.key Key.esc)).1.zerosMsg = m.zerosMsg)
    ∧ ((Update (dispatchList (Update m (Msg.key (Key.char 'i'))).1 msgs)
        (Msg.key Key.esc)).1.inputMode = false)
    ∧ ((Update (dispatchList (Update m (Msg.key (Key.char 'i'))).1 msgs)
        (Msg.key Key.esc)).1.loading = false)
    ∧ ((Update (dispatchList (Update m (Msg.key (Key.char 'i'))).1 msgs)
        (Msg.key Key.esc)).1.results = m.results)
    ∧ ((Update (dispatchList (Update m (Msg.key (Key.char 'i'))).1 msgs)
        (Msg.key Key.esc)).1.source = m.source) := by
  have hm1 : (Update m (Msg.key (Key.char 'i'))).1
      = { m with
            inputMode := true
            focusedInput := 0
            onesInput := (m.onesInput.setValue m.onesMsg).focus
            zerosInput := (m.zerosInput.setValue m.zerosMsg).blur } := by
    simp [Update, updateNormal, h0]
  have hd := dispatchList_preserves ((Update m (Msg.key (Key.char 'i'))).1) msgs
    (by rw [hm1]) hmsgs
  have h1s : ((Update m (Msg.key (Key.char 'i'))).1).onesMsg = m.onesMsg := by
    rw [hm1]
  have h2s : ((Update m (Msg.key (Key.char 'i'))).1).zerosMsg = m.zerosMsg := by
    rw [hm1]
  have h3s : ((Update m (Msg.key (Key.char 'i'))).1).results = m.results := by
    rw [hm1]
  have h4s : ((Update m (Msg.key (Key.char 'i'))).1).source = m.source := by
    rw [hm1]
  have h5s : ((Update m (Msg.key (Key.char 'i'))).1).loading = false := by
    rw [hm1]; exact hl
  have hesc : ∀ m2 : Model, m2.inputMode = true →
      (Update m2 (Msg.key Key.esc)).1
        = { m2 with
              inputMode := false
              onesInput := m2.onesInput.blur
              zerosInput := m2.zerosInput.blur } := by
    intro m2 h2
    simp [Update, updateInput, h2]
  rw [hesc _ hd.1]
  exact ⟨by simpa using hd.2.1.trans h1s,
    by simpa using hd.2.2.1.trans h2s,
    rfl,
    by simpa using hd.2.2.2.2.2.trans h5s,
    by simpa using hd.2.2.2.1.trans h3s,
    by simpa using hd.2.2.2.2.1.trans h4s⟩

/-- Witness for C9 at a concrete run: enter edit mode, type one character,
cancel; the labels, history and selector of the start state survive. -/
theorem C9_label_edit_cancel_witness :
    ((Update (dispatchList (Update (initialModel "qr") (Msg.key (Key.char 'i'))).1
        [Msg.key (Key.char 'x')]) (Msg.key Key.esc)).1.onesMsg
      = (initialModel "qr").onesMsg)
    ∧ ((Update (dispatchList (Update (initialModel "qr") (Msg.key (Key.char 'i'))).1
        [Msg.key (Key.char 'x')]) (Msg.key Key.esc)).1.zerosMsg
      = (initialModel "qr").zerosMsg)
    ∧ ((Update (dispatchList (Update (initialModel "qr") (Msg.key (Key.char 'i'))).1
        [Msg.key (Key.char 'x')]) (Msg.key Key.esc)).1.inputMode = false)
    ∧ ((Update (dispatchList (Update (initialModel "qr") (Msg.key (Key.char 'i'))).1
        [Msg.key (Key.char 'x')]) (Msg.key Key.esc)).1.loading = false)
    ∧ ((Update (dispatchList (Update (initialModel "qr") (Msg.key (Key.char 'i'))).1
        [Msg.key (Key.char 'x')]) (Msg.key Key.esc)).1.results
      = (initialModel "qr").results)
    ∧ ((Update (dispatchList (Update (initialModel "qr") (Msg.key (Key.char 'i'))).1
        [Msg.key (Key.char 'x')]) (Msg.key Key.esc)).1.source
      = (initialModel "qr").source) :=
  C9_label_edit_cancel (initialModel "qr") [Msg.key (Key.char 'x')]
    rfl rfl (by decide)

/-- C10: the source selector is stored at startup without validation; for
every tag outside {"qr", "anu"} a flip attempt fails with the
unknown-source error and appends nothing to the history; the source toggle
maps "qr" to "anu" and every other string to "qr". -/
theorem C10_unknown_source (s : String) (hq : s ≠ "qr") (ha : s ≠ "anu") :
    (initialModel s).source = s
    ∧ (∀ qw aw, fetchRandomBytes s qw aw
        = Except.error (FetchErr.unknownSource s))
    ∧ (∀ qw aw,
        Update { initialModel s with loading := true } (fetchAndFlipRun s qw aw)
          = ({ initialModel s with
                loading := false
                err := some (FetchErr.unknownSource s) }, Cmd.none))
    ∧ (∀ m : Model, m.inputMode = false →
        (Update m (Msg.key (Key.char 'c'))).1.source
          = (if m.source = "qr" then "anu" else "qr")) := by
  refine ⟨rfl, ?_, ?_, ?_⟩
  · intro qw aw
    unfold fetchRandomBytes
    split
    · exact absurd rfl hq
    · exact absurd rfl ha
    · rfl
  · intro qw aw
    have hfe : fetchRandomBytes s qw aw = Except.error (FetchErr.unknownSource s) := by
      unfold fetchRandomBytes
      split
      · exact absurd rfl hq
      · exact absurd rfl ha
      · rfl
    simp [fetchAndFlipRun, hfe, Update, updateNormal, initialModel]
  · intro m hin
    simp only [Update, hin, if_false, Bool.false_eq_true, updateNormal]
    split_ifs <;> simp_all

/-- Witness for C10 at the concrete invalid tag "xyz". -/
theorem C10_unknown_source_witness :
    fetchRandomBytes "xyz" qrWorldDown anuWorldDown
      = Except.error (FetchErr.unknownSource "xyz") :=
  (C10_unknown_source "xyz" (by decide) (by decide)).2.1 qrWorldDown anuWorldDown

end QCoin
